import Mathlib

/-
Verification development for the Vagrant-based script-testing tool
(`tests_scripts.py`).  The Python program is shallowly embedded: the
filesystem is a finite map of directories and files, external commands are
recorded in a trace and their results supplied by an environment, and
Python exceptions are modelled with `Except`.  Machine behaviour that the
program only observes (exit codes, captured output, whether a filesystem
call raises) is provided by explicit environment records, so every theorem
quantifies over all possible behaviours of the external world.
-/

/-- Filesystem paths are lists of components; `[]` plays the role of
`Path('.')` (the process working directory), matching `pathlib` where
`Path('.').name = ''` and `p / '' = p`. -/
abbrev FPath := List String

/-- A snapshot of the filesystem: the set of existing directories and the
set of regular files with their text contents. -/
structure FS where
  dirs : List FPath
  files : List (FPath × String)
deriving Repr, DecidableEq

def FS.isDir (fs : FS) (p : FPath) : Prop := p ∈ fs.dirs

instance (fs : FS) (p : FPath) : Decidable (fs.isDir p) :=
  inferInstanceAs (Decidable (p ∈ fs.dirs))

def FS.isFile (fs : FS) (p : FPath) : Prop := p ∈ fs.files.map Prod.fst

instance (fs : FS) (p : FPath) : Decidable (fs.isFile p) :=
  inferInstanceAs (Decidable (p ∈ fs.files.map Prod.fst))

/-- Models `Path.exists()`. -/
def FS.pathExists (fs : FS) (p : FPath) : Prop := fs.isDir p ∨ fs.isFile p

instance (fs : FS) (p : FPath) : Decidable (fs.pathExists p) :=
  inferInstanceAs (Decidable (fs.isDir p ∨ fs.isFile p))

/-- Models `Path.mkdir(exist_ok=True)` for a single directory. -/
def FS.addDir (fs : FS) (p : FPath) : FS :=
  if p ∈ fs.dirs then fs else { fs with dirs := p :: fs.dirs }

/-- All non-empty ancestors of a path, the path itself included. -/
def ancestorsOf : FPath → List FPath
  | [] => []
  | x :: rest => [x] :: (ancestorsOf rest).map (fun q => x :: q)

/-- Models `Path.mkdir(parents=True, exist_ok=True)`. -/
def FS.mkdirParents (fs : FS) (p : FPath) : FS :=
  (ancestorsOf p).foldl FS.addDir fs

/-- Models `Path.write_text`: replaces any previous file at `p`. -/
def FS.writeFile (fs : FS) (p : FPath) (s : String) : FS :=
  { fs with files := (p, s) :: fs.files.filter (fun e => decide (e.1 ≠ p)) }

def FS.readFile (fs : FS) (p : FPath) : Option String :=
  (fs.files.find? (fun e => decide (e.1 = p))).map (fun e => e.2)

/-- Models `shutil.rmtree`: removes the whole subtree rooted at `p`. -/
def FS.rmtree (fs : FS) (p : FPath) : FS :=
  { dirs := fs.dirs.filter (fun q => decide (¬ p <+: q)),
    files := fs.files.filter (fun e => decide (¬ p <+: e.1)) }

/-- Models `pathlib.PurePath.name` (`Path('.').name = ''`). -/
def pathName (p : FPath) : String := (p.getLast?).getD ("")

/-- Models `p / n` where `pathlib` drops an empty component. -/
def joinName (d : FPath) (n : String) : FPath := if n = "" then d else d ++ [n]

/-- Python exceptions that the modelled library calls can raise. -/
inductive PyErr where
  | isADirectoryError
  | fileNotFoundError
  | osError
deriving Repr, DecidableEq

/-- Models `shutil.copy(src, dstDir / src.name)` as used by
`Workspace.__init__`: copying a directory raises (`copyfile` opens the
source for reading), copying a missing file raises, otherwise the file is
written into the destination directory under its base name.  The `chmod`
that follows in the source only touches permission bits, which this model
does not track. -/
def FS.copyInto (fs : FS) (src : FPath) (dstDir : FPath) : Except PyErr FS :=
  if fs.isDir src then Except.error PyErr.isADirectoryError
  else
    match fs.readFile src with
    | some content => Except.ok (fs.writeFile (joinName dstDir (pathName src)) content)
    | none => Except.error PyErr.fileNotFoundError

/-- The external commands the program can spawn.  `vup`, `vssh` and
`vdestroy` are the exact command lines built in `VagrantManager.up` and
`VagrantManager.destroy` (see `VCmd.render`).  `vboxRemove` and `vboxAdd`
are modelled from the spec: its command table lists cached-image
remove/re-add commands for the retry policy, but the source never builds
them; they exist here so that "no recovery cycle happens" is expressible. -/
inductive VCmd where
  | vup (debug : Bool) (provider : String)
  | vssh (scriptName : String) (args : List String)
  | vdestroy (debug : Bool)
  | vboxRemove (box : String)
  | vboxAdd (box : String) (provider : String)
deriving Repr, DecidableEq

/-- The space-joined argument suffix of the remote ssh command
(`" " + " ".join(script_args)` when non-empty). -/
def argsSuffix (args : List String) : String :=
  if args.isEmpty then "" else " " ++ String.intercalate (" ") args

/-- The exact command strings built by the source. -/
def VCmd.render : VCmd → String
  | VCmd.vup false p => "vagrant up --provider " ++ p
  | VCmd.vup true p => "vagrant up --debug --provider " ++ p
  | VCmd.vssh n args => "vagrant ssh -c \"sudo bash /vagrant/" ++ n ++ argsSuffix args ++ "\""
  | VCmd.vdestroy false => "vagrant destroy -f"
  | VCmd.vdestroy true => "vagrant destroy --debug -f"
  | VCmd.vboxRemove b => "vagrant box remove " ++ b ++ " --all --force"
  | VCmd.vboxAdd b p => "vagrant box add " ++ b ++ " --provider " ++ p ++ " --force"

/-- Process-wide state: the filesystem, the `WORKSPACES` registry (tracked
by object identity, modelled as numeric ids), the list of spawned external
commands with their working directories, and a counter giving fresh
`tempfile.mkdtemp` names. -/
structure World where
  fs : FS
  registry : List Nat
  trace : List (VCmd × FPath)
  tmpCounter : Nat
deriving Repr, DecidableEq

def World.emit (w : World) (c : VCmd) (cwd : FPath) : World :=
  { w with trace := w.trace ++ [(c, cwd)] }

/-- The `Workspace` object of the source; `id` models Python object
identity for registry membership. -/
structure Workspace where
  id : Nat
  box : String
  script : FPath
  provision_path : Option FPath
  script_args : List String
  cleanup : Bool
  provider : String
  dir : FPath
deriving Repr, DecidableEq

def Workspace.logs_dir (ws : Workspace) : FPath := ws.dir ++ ["logs"]

/-- Python truthiness of an optional string (`None` and `''` are falsy). -/
def truthyStr : Option String → Bool
  | none => false
  | some s => decide (s ≠ "")

/-- Lowercase hex digit, as produced by Python's `'{0:04x}'.format`. -/
def hexDigitChar (d : Nat) : Char :=
  if d < 10 then Char.ofNat (48 + d) else Char.ofNat (87 + d)

/-- The escape sequence `\uXXXX` for a code unit `n < 0x10000`. -/
def uSeq (n : Nat) : List Char :=
  ['\\', 'u', hexDigitChar (n / 4096 % 16), hexDigitChar (n / 256 % 16),
   hexDigitChar (n / 16 % 16), hexDigitChar (n % 16)]

/-- Per-character escaping of `json.dumps` with its default
`ensure_ascii=True`: printable ASCII other than quote and backslash is
literal; quote, backslash and the short control escapes use two-character
sequences; every other character below `0x10000` becomes `\uXXXX`; astral
characters become a surrogate pair. -/
def escChar (c : Char) : List Char :=
  if c = '"' then ['\\', '"']
  else if c = '\\' then ['\\', '\\']
  else if 0x20 ≤ c.toNat ∧ c.toNat ≤ 0x7e then [c]
  else if c.toNat = 8 then ['\\', 'b']
  else if c.toNat = 9 then ['\\', 't']
  else if c.toNat = 10 then ['\\', 'n']
  else if c.toNat = 12 then ['\\', 'f']
  else if c.toNat = 13 then ['\\', 'r']
  else if c.toNat < 0x10000 then uSeq c.toNat
  else uSeq (0xD800 + (c.toNat - 0x10000) / 1024) ++ uSeq (0xDC00 + (c.toNat - 0x10000) % 1024)

def escStr : List Char → List Char
  | [] => []
  | c :: cs => escChar c ++ escStr cs

/-- `json.dumps` of a single string. -/
def jsonDumpsStr (s : String) : String := String.mk ('"' :: (escStr s.data ++ ['"']))

/-- Items after the first one, each preceded by the default `', '`
separator. -/
def jsonDumpsTail : List String → String
  | [] => ""
  | s :: rest => ", " ++ jsonDumpsStr s ++ jsonDumpsTail rest

def jsonDumpsList : List String → String
  | [] => ""
  | s :: rest => jsonDumpsStr s ++ jsonDumpsTail rest

/-- `json.dumps` of a list of strings (as in
`args_json = json.dumps(self.script_args)`). -/
def jsonDumps (xs : List String) : String := "[" ++ jsonDumpsList xs ++ "]"

def hexVal (c : Char) : Option Nat :=
  if 48 ≤ c.toNat ∧ c.toNat ≤ 57 then some (c.toNat - 48)
  else if 97 ≤ c.toNat ∧ c.toNat ≤ 102 then some (c.toNat - 87)
  else if 65 ≤ c.toNat ∧ c.toNat ≤ 70 then some (c.toNat - 55)
  else none

/-- Decoder for the single-character JSON escapes. -/
def escDecode (e : Char) : Option Char :=
  if e = '"' then some '"'
  else if e = '\\' then some '\\'
  else if e = '/' then some '/'
  else if e = 'b' then some (Char.ofNat 8)
  else if e = 't' then some (Char.ofNat 9)
  else if e = 'n' then some (Char.ofNat 10)
  else if e = 'f' then some (Char.ofNat 12)
  else if e = 'r' then some (Char.ofNat 13)
  else none

/- Modelled from the spec: re-parsing the emitted `args:` field.  The
mutual functions below form a standard JSON parser for the fragment the
serializer emits -- an array of strings with `', '` separators, the
standard escapes and `\uXXXX` sequences with surrogate-pair handling
(lone surrogates rejected).  `pStr` scans inside a string item
accumulating its characters in reverse; `pEsc` handles a backslash
escape; `pU` a `\uXXXX` sequence; `pUPair` the low half of a surrogate
pair; `pAfter` the separator or closing bracket after an item. -/
mutual

def pStr (acc : List String) (sacc : List Char) : List Char → Option (List String × List Char)
  | [] => none
  | c :: r =>
    if c = '"' then pAfter acc (String.mk sacc.reverse) r
    else if c = '\\' then pEsc acc sacc r
    else pStr acc (c :: sacc) r
termination_by l => l.length
decreasing_by all_goals simp_arith

def pEsc (acc : List String) (sacc : List Char) : List Char → Option (List String × List Char)
  | [] => none
  | e :: r2 =>
    if e = 'u' then pU acc sacc r2
    else
      match escDecode e with
      | some ch => pStr acc (ch :: sacc) r2
      | none => none
termination_by l => l.length
decreasing_by all_goals simp_arith

def pU (acc : List String) (sacc : List Char) : List Char → Option (List String × List Char)
  | a :: b :: c2 :: d :: r3 =>
    match hexVal a, hexVal b, hexVal c2, hexVal d with
    | some x1, some x2, some x3, some x4 =>
      let n := 4096 * x1 + 256 * x2 + 16 * x3 + x4
      if n < 0xD800 then pStr acc (Char.ofNat n :: sacc) r3
      else if 0xE000 ≤ n then pStr acc (Char.ofNat n :: sacc) r3
      else if n < 0xDC00 then pUPair acc sacc n r3
      else none
    | _, _, _, _ => none
  | _ => none
termination_by l => l.length
decreasing_by all_goals simp_arith

def pUPair (acc : List String) (sacc : List Char) (n : Nat) :
    List Char → Option (List String × List Char)
  | b1 :: b2 :: a2 :: b3 :: c3 :: d3 :: r4 =>
    if b1 = '\\' ∧ b2 = 'u' then
      match hexVal a2, hexVal b3, hexVal c3, hexVal d3 with
      | some y1, some y2, some y3, some y4 =>
        let m := 4096 * y1 + 256 * y2 + 16 * y3 + y4
        if 0xDC00 ≤ m ∧ m < 0xE000 then
          pStr acc (Char.ofNat (0x10000 + 1024 * (n - 0xD800) + (m - 0xDC00)) :: sacc) r4
        else none
      | _, _, _, _ => none
    else none
  | _ => none
termination_by l => l.length
decreasing_by all_goals simp_arith

def pAfter (acc : List String) (s : String) : List Char → Option (List String × List Char)
  | [] => none
  | c :: r =>
    if c = ']' then some ((s :: acc).reverse, r)
    else if c = ',' then pAfterSep (s :: acc) r
    else none
termination_by l => l.length
decreasing_by all_goals simp_arith

def pAfterSep (acc : List String) : List Char → Option (List String × List Char)
  | ' ' :: '"' :: r2 => pStr acc [] r2
  | _ => none
termination_by l => l.length
decreasing_by all_goals simp_arith

end

/-- Modelled from the spec: parse a JSON array of strings, returning the
items and the unconsumed remainder. -/
def parseJsonStringArray : List Char → Option (List String × List Char)
  | '[' :: ']' :: r => some ([], r)
  | '[' :: '"' :: r => pStr [] [] r
  | _ => none

/-- The machine-configuration (Vagrantfile) lines emitted by
`Workspace.write_vagrantfile`: box, synced folder, an optional provisioner
block (only when both a provisioner kind and a provisioning artifact are
present), closed by `end`. -/
def vagrantfileLines (box : String) (provisioner : Option String)
    (provision_path : Option FPath) (script_args : List String) : List String :=
  let base := ["Vagrant.configure(\"2\") do |config|",
    "  config.vm.box = \"" ++ box ++ "\"",
    "  config.vm.synced_folder \".\", \"/vagrant\", disabled: false"]
  let mid :=
    if truthyStr provisioner && provision_path.isSome then
      if provisioner = some ("shell") then
        ["  config.vm.provision \"shell\", privileged: true, path: \"" ++
          pathName (provision_path.getD []) ++ "\", args: " ++ jsonDumps script_args]
      else if provisioner = some ("ansible") then
        ["  config.vm.provision \"ansible\" do |ansible|",
         "    ansible.become = true",
         "    ansible.playbook = \"" ++ pathName (provision_path.getD []) ++ "\"",
         "  end"]
      else []
    else []
  base ++ mid ++ ["end"]

/-- Models `Workspace.write_vagrantfile`: joins the lines with newlines and
writes the file into the workspace root. -/
def Workspace.write_vagrantfile (ws : Workspace) (provisioner : Option String) (fs : FS) : FS :=
  fs.writeFile (ws.dir ++ ["Vagrantfile"])
    (String.intercalate ("\n") (vagrantfileLines ws.box provisioner ws.provision_path ws.script_args))

/-- Models `Workspace.cleanup_workspace`: remove the directory tree if it
still exists, then drop the workspace from the registry if registered.
`rmtreeRaises` is the environment's choice of whether `shutil.rmtree`
raises an `OSError`; a raise propagates (the method has no handler) and
skips the registry update. -/
def Workspace.cleanup_workspace (ws : Workspace) (rmtreeRaises : Bool) (w : World) :
    Except PyErr Unit × World :=
  if w.fs.pathExists ws.dir then
    if rmtreeRaises then (Except.error PyErr.osError, w)
    else
      let w1 := { w with fs := w.fs.rmtree ws.dir }
      (Except.ok (),
        { w1 with registry := if ws.id ∈ w1.registry then w1.registry.erase ws.id else w1.registry })
  else
    (Except.ok (),
      { w with registry := if ws.id ∈ w.registry then w.registry.erase ws.id else w.registry })

/-- Dir resolution of `Workspace.__init__`: an explicit base directory is
used as `workdir / box` when it already is a directory and the box name is
non-empty, and verbatim otherwise; without one a fresh temporary directory
is allocated. -/
def resolveWsDir (fs : FS) (box : String) (workdir : Option FPath) (tmpCounter : Nat) : FPath :=
  match workdir with
  | some wd => if fs.isDir wd ∧ box ≠ "" then wd ++ [box] else wd
  | none => ["tmp", "vg-test-" ++ toString tmpCounter]

/-- Second half of `Workspace.__init__`: copy the optional provisioning
artifact into the workspace (Python checks only truthiness here, not
existence, so a missing artifact raises). -/
def copyProvision (ws : Workspace) (w : World) : Except PyErr Workspace × World :=
  match ws.provision_path with
  | none => (Except.ok ws, w)
  | some pp =>
    match w.fs.copyInto pp ws.dir with
    | Except.error e => (Except.error e, w)
    | Except.ok fs4 => (Except.ok ws, { w with fs := fs4 })

/-- Models `Workspace.__init__`: resolve and create the workspace
directory (with parents for a caller-supplied base; `mkdtemp` otherwise),
create the logs subdirectory, register in `WORKSPACES` when the cleanup
flag is set, then copy the script (when its path exists) and the optional
provisioning artifact into the workspace. -/
def mkWorkspace (id : Nat) (box : String) (script : FPath) (provision_path : Option FPath)
    (script_args : List String) (cleanup : Bool) (provider : String) (workdir : Option FPath)
    (w : World) : Except PyErr Workspace × World :=
  let d := resolveWsDir w.fs box workdir w.tmpCounter
  let fs1 := match workdir with
    | some _ => w.fs.mkdirParents d
    | none => w.fs.addDir d
  let tmp2 := match workdir with
    | some _ => w.tmpCounter
    | none => w.tmpCounter + 1
  let fs2 := fs1.addDir (d ++ ["logs"])
  let reg := if cleanup then w.registry ++ [id] else w.registry
  let w1 : World := { fs := fs2, registry := reg, trace := w.trace, tmpCounter := tmp2 }
  let ws : Workspace :=
    { id := id, box := box, script := script,
      provision_path := provision_path, script_args := script_args,
      cleanup := cleanup, provider := provider, dir := d }
  if w1.fs.pathExists script then
    match w1.fs.copyInto script d with
    | Except.error e => (Except.error e, w1)
    | Except.ok fs3 => copyProvision ws { w1 with fs := fs3 }
  else copyProvision ws w1

/-- Environment for one `up` run: the results the two spawned commands
would report, and whether each fallible library call raises.  The spawn
flags model `subprocess.Popen` raising an `OSError`; the write flags model
`write_text` raising; `rmtreeRaises` models `shutil.rmtree` raising. -/
structure UpEnv where
  vfWriteRaises : Bool
  createSpawnRaises : Bool
  createResult : Int × String
  upLogWriteRaises : Bool
  sshSpawnRaises : Bool
  sshResult : Int × String
  sshLogWriteRaises : Bool
  destroySpawnRaises : Bool
  destroyResult : Int × String
  rmtreeRaises : Bool
deriving Repr, DecidableEq

/-- The manager of the source: a workspace plus provider and debug flag. -/
structure VagrantManager where
  ws : Workspace
  provider : String
  debug : Bool
deriving Repr, DecidableEq

/-- The `try:` body of `VagrantManager.up`: write the Vagrantfile, run the
create command and persist its output, stop on a non-zero status, and when
no provisioner was given run the script over ssh and persist that output.
The captured outputs and exit codes come from the environment; the command
runner itself never raises (`run_cmd` handles its own timeout), so the
exception sources are the config write, the two spawns and the two log
writes. -/
def VagrantManager.tryUp (m : VagrantManager) (env : UpEnv) (provisioner : Option String)
    (w : World) : Except PyErr Unit × World :=
  if env.vfWriteRaises then (Except.error PyErr.osError, w) else
  let w1 := { w with fs := m.ws.write_vagrantfile provisioner w.fs }
  if env.createSpawnRaises then (Except.error PyErr.osError, w1) else
  let w2 := w1.emit (VCmd.vup m.debug m.provider) m.ws.dir
  if env.upLogWriteRaises then (Except.error PyErr.osError, w2) else
  let w3 := { w2 with fs := w2.fs.writeFile (m.ws.logs_dir ++ [m.ws.box ++ "_up.log"]) env.createResult.2 }
  if env.createResult.1 ≠ 0 then (Except.ok (), w3) else
  if truthyStr provisioner then (Except.ok (), w3) else
  if env.sshSpawnRaises then (Except.error PyErr.osError, w3) else
  let w4 := w3.emit (VCmd.vssh (pathName m.ws.script) m.ws.script_args) m.ws.dir
  if env.sshLogWriteRaises then (Except.error PyErr.osError, w4) else
  (Except.ok (),
    { w4 with fs := w4.fs.writeFile (m.ws.logs_dir ++ [m.ws.box ++ "_script_output.log"]) env.sshResult.2 })

/-- Models `VagrantManager.up`: the try body's exception (if any) is caught
by the `except Exception:` handler and only logged; the `finally:` block
then runs the destroy command and `cleanup_workspace` when the cleanup
flag is set.  An exception inside the `finally:` block itself has no
handler and propagates out of `up`. -/
def VagrantManager.up (m : VagrantManager) (env : UpEnv) (provisioner : Option String)
    (w : World) : Except PyErr Unit × World :=
  let w1 := (m.tryUp env provisioner w).2
  if m.ws.cleanup then
    if env.destroySpawnRaises then (Except.error PyErr.osError, w1)
    else m.ws.cleanup_workspace env.rmtreeRaises (w1.emit (VCmd.vdestroy m.debug) m.ws.dir)
  else (Except.ok (), w1)

/-- Environment for one `destroy` run. -/
structure DestroyEnv where
  spawnRaises : Bool
  result : Int × String
  mkdirRaises : Bool
  logWriteRaises : Bool
deriving Repr, DecidableEq

/-- Models `VagrantManager.destroy`: missing workdir means log-and-return;
otherwise run the destroy command and persist its log (any exception in
that `try:` is caught and logged), and in the `finally:` remove the
directory tree unconditionally if it still exists. -/
def VagrantManager.destroy (m : VagrantManager) (env : DestroyEnv) (w : World) : World :=
  if w.fs.pathExists m.ws.dir then
    let w1 :=
      if env.spawnRaises then w
      else
        let wa := w.emit (VCmd.vdestroy m.debug) m.ws.dir
        if env.mkdirRaises then wa
        else
          let wb := { wa with fs := wa.fs.addDir (m.ws.dir ++ ["logs"]) }
          if env.logWriteRaises then wb
          else { wb with fs := wb.fs.writeFile (m.ws.dir ++ ["logs", "destroy.log"]) env.result.2 }
    if w1.fs.pathExists m.ws.dir then { w1 with fs := w1.fs.rmtree m.ws.dir } else w1
  else w

/-- The parsed command line of the `up` sub-command; `extra` is the list
of unrecognized tokens forwarded as script arguments. -/
structure UpArgs where
  script : FPath
  box : Option String
  boxes : Option FPath
  provider : String
  provisioner : Option String
  provision_path : Option FPath
  parallel : Nat
  cleanup : Bool
  workdir : Option FPath
  debug : Bool
  extra : List String

/-- Outcome of a `main` invocation: a normal `sys.exit`/fallthrough exit
code, or an uncaught exception (which CPython turns into a traceback and a
non-zero process status). -/
inductive MainResult where
  | exitCode (n : Nat)
  | raised (e : PyErr)
deriving Repr, DecidableEq

/-- Models `[l.strip() for l in text.splitlines() if l.strip()]`. -/
def stripLines (content : String) : List String :=
  ((content.splitOn ("\n")).map String.trim).filter (fun l => decide (l ≠ ""))

/-- Box-set resolution of `main`: a boxes file wins over `--box`: a missing
file or the absence of both options exits with status 1; reading a
directory as text raises. -/
def resolveBoxes (w : World) (args : UpArgs) : Except MainResult (List String) :=
  match args.boxes with
  | some bf =>
    if w.fs.pathExists bf then
      match w.fs.readFile bf with
      | some content => Except.ok (stripLines content)
      | none => Except.error (MainResult.raised PyErr.isADirectoryError)
    else Except.error (MainResult.exitCode 1)
  | none =>
    match args.box with
    | some b => Except.ok [b]
    | none => Except.error (MainResult.exitCode 1)

/-- The per-box `worker` closure of `main`: construct the Workspace and
the manager and run `up`.  `i` is the index of the box in the resolved
list, used as the identity of the constructed workspace. -/
def worker (envs : Nat → UpEnv) (args : UpArgs) (i : Nat) (box : String) (w : World) :
    Except PyErr Unit × World :=
  match mkWorkspace i box args.script args.provision_path args.extra args.cleanup
      args.provider args.workdir w with
  | (Except.error e, w1) => (Except.error e, w1)
  | (Except.ok ws, w1) =>
    VagrantManager.up { ws := ws, provider := args.provider, debug := args.debug }
      (envs i) args.provisioner w1

/-- Sequential fan-out (`parallel == 1`): workers run one after another in
the main thread, so an uncaught worker exception crashes the process and
the remaining boxes never run. -/
def runSeq (envs : Nat → UpEnv) (args : UpArgs) : List (Nat × String) → World → MainResult × World
  | [], w => (MainResult.exitCode 0, w)
  | (i, b) :: rest, w =>
    match worker envs args i b w with
    | (Except.ok _, w1) => runSeq envs args rest w1
    | (Except.error e, w1) => (MainResult.raised e, w1)

/-- Pooled fan-out (`parallel > 1`): `ThreadPoolExecutor.map` runs every
worker and its never-retrieved results swallow worker exceptions.  The
pool is modelled as running the workers in order, which is one of its
possible schedules; the claims checked here do not depend on the
interleaving. -/
def runPar (envs : Nat → UpEnv) (args : UpArgs) : List (Nat × String) → World → World
  | [], w => w
  | (i, b) :: rest, w => runPar envs args rest (worker envs args i b w).2

/-- Models `main` for the `up` action: missing orchestrator binary, a
non-existent script path, and a failed box-set resolution exit non-zero
before any workspace is created; otherwise every resolved box gets one
lifecycle and the function falls through to exit status 0. -/
def mainUp (vagrantOnPath : Bool) (envs : Nat → UpEnv) (args : UpArgs) (w : World) :
    MainResult × World :=
  if vagrantOnPath = false then (MainResult.exitCode 1, w)
  else if w.fs.pathExists args.script then
    match resolveBoxes w args with
    | Except.error r => (r, w)
    | Except.ok boxes =>
      if 1 < args.parallel then (MainResult.exitCode 0, runPar envs args boxes.enum w)
      else runSeq envs args boxes.enum w
  else (MainResult.exitCode 1, w)

/-- Models `main` for the `destroy` action:
`Workspace("destroy", Path(), None, [], False, "", Path(args.workdir))`
followed by `VagrantManager(ws, "", args.debug).destroy()`.  A
construction exception propagates (there is no handler in `main`). -/
def mainDestroy (env : DestroyEnv) (debug : Bool) (workdir : FPath) (w : World) :
    Except PyErr Unit × World :=
  match mkWorkspace 0 ("destroy") [] none [] false ("") (some workdir) w with
  | (Except.error e, w1) => (Except.error e, w1)
  | (Except.ok ws, w1) =>
    (Except.ok (), VagrantManager.destroy { ws := ws, provider := "", debug := debug } env w1)

/-- Abstract behaviour of one spawned child process: the lines it writes,
the time until it closes its output stream (EOF), the further time it
would need after EOF before exiting on its own, and its exit status. -/
structure ChildBehavior where
  outLines : List String
  eofTime : Nat
  exitDelay : Nat
  exitCode : Int
deriving Repr, DecidableEq

/-- What the command runner reports: the status code and captured output
it returns, the wall-clock time it spent (equal to the child's total
lifetime), and whether it killed the child. -/
structure RunResult where
  code : Int
  output : String
  elapsed : Nat
  killed : Bool
deriving Repr, DecidableEq

/-- One captured line: `f"{prefix} {line.strip()}"` when the prefix is
non-empty, plus the newline appended by the source. -/
def capturedLine (pre l : String) : String :=
  (if pre ≠ "" then pre ++ " " ++ l.trim else l.trim) ++ "\n"

def capturedOutput (pre : String) (ls : List String) : String :=
  String.join (ls.map (capturedLine pre))

/-- Models `run_cmd`: the `for line in proc.stdout` loop blocks until the
child closes its output stream (taking `eofTime`, with no bound), and only
then does `proc.wait(timeout=600)` start; if the remaining `exitDelay`
exceeds 600 the child is killed and the sentinel `-1` is returned together
with everything captured so far (all lines, since EOF was reached),
otherwise the child's own status is returned.  The debug flag only injects
an environment variable for the child and is not observable here. -/
def runCmd (b : ChildBehavior) (pre : String) : RunResult :=
  if 600 < b.exitDelay then
    { code := -1, output := capturedOutput pre b.outLines,
      elapsed := b.eofTime + 600, killed := true }
  else
    { code := b.exitCode, output := capturedOutput pre b.outLines,
      elapsed := b.eofTime + b.exitDelay, killed := false }

def isRecoveryCmd : VCmd → Bool
  | VCmd.vboxRemove _ => true
  | VCmd.vboxAdd _ _ => true
  | _ => false

def isCreateCmd : VCmd → Bool
  | VCmd.vup _ _ => true
  | _ => false

def isSshCmd : VCmd → Bool
  | VCmd.vssh _ _ => true
  | _ => false

def isDestroyCmd : VCmd → Bool
  | VCmd.vdestroy _ => true
  | _ => false

/-- Number of cached-image remove/re-add commands in a trace: a recovery
cycle would contribute at least one of them. -/
def recoveryCount (tr : List (VCmd × FPath)) : Nat :=
  (tr.filter (fun e => isRecoveryCmd e.1)).length

def createCount (tr : List (VCmd × FPath)) : Nat :=
  (tr.filter (fun e => isCreateCmd e.1)).length

def sshCount (tr : List (VCmd × FPath)) : Nat :=
  (tr.filter (fun e => isSshCmd e.1)).length

def destroyCount (tr : List (VCmd × FPath)) : Nat :=
  (tr.filter (fun e => isDestroyCmd e.1)).length

/-- Modelled from the spec: a "provider-image-import error marker" that
the retry policy is keyed on.  The source never defines or searches for
any such marker; this stands for an arbitrary choice of it when
instantiating the claim's premise. -/
def importErrorMarker : String := "error while importing"

/-- All exception switches of an `up` environment turned off: commands may
still fail (any exit codes and outputs), but no library call raises. -/
def UpEnv.noRaises (e : UpEnv) : Prop :=
  e.vfWriteRaises = false ∧ e.createSpawnRaises = false ∧ e.upLogWriteRaises = false ∧
  e.sshSpawnRaises = false ∧ e.sshLogWriteRaises = false ∧ e.destroySpawnRaises = false ∧
  e.rmtreeRaises = false

instance (e : UpEnv) : Decidable e.noRaises := by
  unfold UpEnv.noRaises
  infer_instance

/-- A typical workspace of a single-box `up` run (no cleanup flag). -/
def wsA : Workspace :=
  { id := 0, box := "ubuntu", script := ["home", "test.sh"], provision_path := none,
    script_args := [], cleanup := false, provider := "virtualbox", dir := ["tmp", "vg-test-0"] }

/-- The same workspace with the cleanup flag set (and registered). -/
def wsB : Workspace :=
  { wsA with cleanup := true }

/-- A filesystem holding the working directory, the workspace directory
with its logs subdirectory, and the script under test. -/
def fsA : FS :=
  { dirs := [[], ["home"], ["tmp"], ["tmp", "vg-test-0"], ["tmp", "vg-test-0", "logs"]],
    files := [(["home", "test.sh"], "echo hi")] }

def wA : World :=
  { fs := fsA, registry := [], trace := [], tmpCounter := 1 }

def wB : World :=
  { fs := fsA, registry := [0], trace := [], tmpCounter := 1 }

/-- Environment of a run whose create command fails with status 1 and an
output that contains an import-error marker; nothing raises. -/
def envC1 : UpEnv :=
  { vfWriteRaises := false, createSpawnRaises := false,
    createResult := (1, "The provider reported: error while importing the base box image"),
    upLogWriteRaises := false, sshSpawnRaises := false, sshResult := (0, ""),
    sshLogWriteRaises := false, destroySpawnRaises := false, destroyResult := (0, ""),
    rmtreeRaises := false }

/-- Environment where everything succeeds. -/
def envOk : UpEnv :=
  { vfWriteRaises := false, createSpawnRaises := false, createResult := (0, "ok"),
    upLogWriteRaises := false, sshSpawnRaises := false, sshResult := (0, "ran"),
    sshLogWriteRaises := false, destroySpawnRaises := false, destroyResult := (0, ""),
    rmtreeRaises := false }

/-- Environment where the Vagrantfile write raises mid-sequence and the
cleanup path still runs (nothing in the `finally:` raises). -/
def envMidRaise : UpEnv :=
  { envOk with vfWriteRaises := true }

/-- Environment where `shutil.rmtree` in the cleanup path raises. -/
def envRmtreeRaise : UpEnv :=
  { envOk with rmtreeRaises := true }

def denvOk : DestroyEnv :=
  { spawnRaises := false, result := (2, "destroy failed"), mkdirRaises := false,
    logWriteRaises := false }

def denvRaise : DestroyEnv :=
  { spawnRaises := true, result := (0, ""), mkdirRaises := false, logWriteRaises := true }

/-- World for the destroy entry point when the caller-supplied workdir does
not exist: only the process working directory is present. -/
def wC3 : World :=
  { fs := { dirs := [[]], files := [] }, registry := [], trace := [], tmpCounter := 0 }

/-- World for the destroy entry point when the caller-supplied workdir
`["ws"]` exists. -/
def wC4 : World :=
  { fs := { dirs := [[], ["ws"]], files := [] }, registry := [], trace := [], tmpCounter := 0 }

/-- Child that streams output for 1000 time units before closing its
stream and exiting immediately: `run_cmd` never times it out. -/
def bSlow : ChildBehavior :=
  { outLines := ["still working"], eofTime := 1000, exitDelay := 0, exitCode := 0 }

/-- Child that closes its stream at once but takes 700 further units to
exit: `run_cmd` kills it at the 600-unit mark. -/
def bHang : ChildBehavior :=
  { outLines := ["boot log"], eofTime := 0, exitDelay := 700, exitCode := 0 }

/-- Arguments of `up --box ubuntu --cleanup` with a valid script, no
provisioner artifact and sequential execution. -/
def argsC7 : UpArgs :=
  { script := ["home", "test.sh"], box := some ("ubuntu"), boxes := none,
    provider := "virtualbox", provisioner := none, provision_path := none,
    parallel := 1, cleanup := true, workdir := none, debug := false, extra := [] }

def wC7 : World :=
  { fs := { dirs := [[], ["home"]], files := [(["home", "test.sh"], "echo hi")] },
    registry := [], trace := [], tmpCounter := 0 }

/-- Create fails with status 1 (no raise anywhere): an individual box
lifecycle failure. -/
def envFail : UpEnv :=
  { envOk with createResult := (1, "boom") }

/-- Create reports the sentinel timeout status `-1`. -/
def envTimeout : UpEnv :=
  { envOk with createResult := (-1, "partial boot output") }

instance : DecidableEq (Except PyErr Unit) := fun a b =>
  match a, b with
  | Except.error x, Except.error y =>
    if h : x = y then isTrue (by rw [h])
    else isFalse (fun hc => by injection hc with h2; exact h h2)
  | Except.ok x, Except.ok y => isTrue (by cases x; cases y; rfl)
  | Except.error _, Except.ok _ => isFalse (fun hc => Except.noConfusion hc)
  | Except.ok _, Except.error _ => isFalse (fun hc => Except.noConfusion hc)

theorem append_cons_ne (l : FPath) (a : String) (t : FPath) : l ++ a :: t ≠ l := by
  intro h
  have h2 := congrArg List.length h
  rw [List.length_append, List.length_cons] at h2
  omega

theorem FS.isDir_writeFile (fs : FS) (p q : FPath) (c : String) :
    (fs.writeFile p c).isDir q ↔ fs.isDir q := Iff.rfl

theorem FS.isFile_writeFile (fs : FS) (p q : FPath) (c : String) :
    (fs.writeFile p c).isFile q ↔ (q = p ∨ fs.isFile q) := by
  simp only [FS.isFile, FS.writeFile, List.map_cons, List.mem_cons, List.mem_map,
    List.mem_filter, decide_eq_true_eq]
  constructor
  · rintro (rfl | ⟨e, ⟨he, _⟩, rfl⟩)
    · exact Or.inl rfl
    · exact Or.inr ⟨e, he, rfl⟩
  · rintro (rfl | ⟨e, he, rfl⟩)
    · exact Or.inl rfl
    · by_cases hep : e.1 = p
      · exact Or.inl hep
      · exact Or.inr ⟨e, ⟨he, hep⟩, rfl⟩

theorem FS.pathExists_writeFile (fs : FS) (p q : FPath) (c : String) :
    (fs.writeFile p c).pathExists q ↔ (q = p ∨ fs.pathExists q) := by
  rw [FS.pathExists, FS.pathExists, FS.isDir_writeFile, FS.isFile_writeFile]
  tauto

theorem FS.isFile_addDir (fs : FS) (p q : FPath) :
    (fs.addDir p).isFile q ↔ fs.isFile q := by
  unfold FS.addDir
  split <;> exact Iff.rfl

theorem FS.isDir_addDir (fs : FS) (p q : FPath) :
    (fs.addDir p).isDir q ↔ (q = p ∨ fs.isDir q) := by
  unfold FS.addDir FS.isDir
  split
  · constructor
    · exact fun h => Or.inr h
    · rintro (rfl | h)
      · assumption
      · exact h
  · exact List.mem_cons

theorem FS.pathExists_addDir (fs : FS) (p q : FPath) :
    (fs.addDir p).pathExists q ↔ (q = p ∨ fs.pathExists q) := by
  rw [FS.pathExists, FS.pathExists, FS.isDir_addDir, FS.isFile_addDir]
  tauto

theorem FS.isDir_rmtree (fs : FS) (p q : FPath) :
    (fs.rmtree p).isDir q ↔ (¬ p <+: q ∧ fs.isDir q) := by
  simp only [FS.rmtree, FS.isDir, List.mem_filter, decide_eq_true_eq]
  tauto

theorem FS.isFile_rmtree (fs : FS) (p q : FPath) :
    (fs.rmtree p).isFile q ↔ (¬ p <+: q ∧ fs.isFile q) := by
  simp only [FS.rmtree, FS.isFile, List.mem_map, List.mem_filter, decide_eq_true_eq]
  constructor
  · rintro ⟨e, ⟨he, hp⟩, rfl⟩
    exact ⟨hp, e, he, rfl⟩
  · rintro ⟨hp, e, he, rfl⟩
    exact ⟨e, ⟨he, hp⟩, rfl⟩

theorem FS.not_pathExists_rmtree (fs : FS) (p q : FPath) (h : p <+: q) :
    ¬ (fs.rmtree p).pathExists q := by
  rw [FS.pathExists, FS.isDir_rmtree, FS.isFile_rmtree]
  tauto

theorem not_mem_erase_self_of_count_le_one {l : List Nat} {a : Nat} (h : l.count a ≤ 1) :
    a ∉ l.erase a := by
  intro hmem
  have h1 := List.count_erase_self a l
  have h2 : 1 ≤ (l.erase a).count a := List.one_le_count_iff.mpr hmem
  omega

theorem recoveryCount_append (t1 t2 : List (VCmd × FPath)) :
    recoveryCount (t1 ++ t2) = recoveryCount t1 + recoveryCount t2 := by
  simp [recoveryCount, List.filter_append]

theorem createCount_append (t1 t2 : List (VCmd × FPath)) :
    createCount (t1 ++ t2) = createCount t1 + createCount t2 := by
  simp [createCount, List.filter_append]

theorem sshCount_append (t1 t2 : List (VCmd × FPath)) :
    sshCount (t1 ++ t2) = sshCount t1 + sshCount t2 := by
  simp [sshCount, List.filter_append]

theorem destroyCount_append (t1 t2 : List (VCmd × FPath)) :
    destroyCount (t1 ++ t2) = destroyCount t1 + destroyCount t2 := by
  simp [destroyCount, List.filter_append]

/-- C3.  The claim says the destroy entry point on a non-existent workdir
runs no command and has no side effect beyond a logged error.  The code
disagrees: reconstructing the Workspace first runs
`self.dir.mkdir(parents=True, exist_ok=True)` and creates the logs
subdirectory, and then crashes with an `IsADirectoryError` while copying
the placeholder script `Path('.')`, before `VagrantManager.destroy` (and
its absent-directory check) is ever reached.  At the concrete failing
input: the workdir and its logs subdirectory exist afterwards, no external
command was run, and the entry point raises instead of returning after a
logged error. -/
theorem mainDestroy_missing_workdir_has_side_effects :
    ¬ wC3.fs.pathExists (["nonexistent"]) ∧
    (mainDestroy denvOk false (["nonexistent"]) wC3).1 = Except.error PyErr.isADirectoryError ∧
    (mainDestroy denvOk false (["nonexistent"]) wC3).2.fs.isDir (["nonexistent"]) ∧
    (mainDestroy denvOk false (["nonexistent"]) wC3).2.fs.isDir (["nonexistent", "logs"]) ∧
    (mainDestroy denvOk false (["nonexistent"]) wC3).2.trace = [] := by
  decide

/-- C4.  The claim says the destroy entry point on an existing workdir
reconstructs a Workspace whose directory is exactly the caller-supplied
directory and invokes the manager's destroy on it.  The code disagrees:
`Workspace.__init__` is called with box name `"destroy"`, so for an
existing base directory it resolves `self.dir` to `workdir / "destroy"`
(creating that subdirectory), and then raises `IsADirectoryError` copying
the placeholder script `Path('.')`, so `VagrantManager.destroy` is never
invoked (the trace stays empty and the caller-supplied directory is never
removed). -/
theorem mainDestroy_existing_workdir_wrong_dir :
    resolveWsDir wC4.fs ("destroy") (some (["ws"])) 0 = ["ws", "destroy"] ∧
    resolveWsDir wC4.fs ("destroy") (some (["ws"])) 0 ≠ ["ws"] ∧
    (mainDestroy denvOk false (["ws"]) wC4).1 = Except.error PyErr.isADirectoryError ∧
    (mainDestroy denvOk false (["ws"]) wC4).2.fs.isDir (["ws", "destroy"]) ∧
    (mainDestroy denvOk false (["ws"]) wC4).2.trace = [] ∧
    (mainDestroy denvOk false (["ws"]) wC4).2.fs.pathExists (["ws"]) := by
  decide

theorem tryUp_trace_shape (m : VagrantManager) (env : UpEnv) (prov : Option String) (w : World) :
    (m.tryUp env prov w).2.trace = w.trace ∨
    (m.tryUp env prov w).2.trace = w.trace ++ [(VCmd.vup m.debug m.provider, m.ws.dir)] ∨
    (m.tryUp env prov w).2.trace =
      w.trace ++ [(VCmd.vup m.debug m.provider, m.ws.dir),
        (VCmd.vssh (pathName m.ws.script) m.ws.script_args, m.ws.dir)] := by
  simp only [VagrantManager.tryUp, World.emit]
  repeat' split
  all_goals simp [List.append_assoc]

theorem tryUp_trace_shape_provisioner (m : VagrantManager) (env : UpEnv) (prov : Option String)
    (w : World) (hp : truthyStr prov = true) :
    (m.tryUp env prov w).2.trace = w.trace ∨
    (m.tryUp env prov w).2.trace = w.trace ++ [(VCmd.vup m.debug m.provider, m.ws.dir)] := by
  simp only [VagrantManager.tryUp, World.emit]
  repeat' split
  all_goals first
    | exact Or.inl rfl
    | exact Or.inr rfl

theorem tryUp_registry (m : VagrantManager) (env : UpEnv) (prov : Option String) (w : World) :
    (m.tryUp env prov w).2.registry = w.registry := by
  simp only [VagrantManager.tryUp, World.emit]
  repeat' split
  all_goals rfl

theorem cleanup_workspace_trace (ws : Workspace) (rr : Bool) (w : World) :
    (ws.cleanup_workspace rr w).2.trace = w.trace := by
  simp only [Workspace.cleanup_workspace]
  repeat' split
  all_goals rfl

theorem up_trace_shape (m : VagrantManager) (env : UpEnv) (prov : Option String) (w : World) :
    (m.up env prov w).2.trace = (m.tryUp env prov w).2.trace ∨
    (m.up env prov w).2.trace =
      (m.tryUp env prov w).2.trace ++ [(VCmd.vdestroy m.debug, m.ws.dir)] := by
  simp only [VagrantManager.up]
  split
  · split
    · exact Or.inl rfl
    · rw [cleanup_workspace_trace]
      exact Or.inr rfl
  · exact Or.inl rfl

/-- C1 (amended).  The lifecycle manager performs no recovery cycle at
all, whatever the create command's exit status or captured output: an `up`
run never spawns a cached-image remove or re-add command, and spawns the
create command at most once (so in particular it never retries it).  A
failed create is only logged; the run then proceeds directly to its
optional cleanup. -/
theorem up_no_recovery_cycle (m : VagrantManager) (env : UpEnv) (prov : Option String)
    (w : World) :
    recoveryCount (m.up env prov w).2.trace = recoveryCount w.trace ∧
    createCount (m.up env prov w).2.trace ≤ createCount w.trace + 1 := by
  rcases up_trace_shape m env prov w with h | h <;>
    rcases tryUp_trace_shape m env prov w with h2 | h2 | h2 <;>
      rw [h, h2] <;>
        simp [recoveryCount_append, createCount_append, recoveryCount, createCount,
          List.filter, isRecoveryCmd, isCreateCmd]

/-- C1 counterexample.  A run whose create command exits with status 1 and
whose captured output contains an import-error marker performs zero
recovery cycles, not the one cycle the claim requires: no remove/re-add
command appears in the trace and the create command is spawned exactly
once (no retry). -/
theorem up_recovery_cycle_cex :
    envC1.createResult.1 ≠ 0 ∧
    importErrorMarker.data <:+: envC1.createResult.2.data ∧
    recoveryCount (VagrantManager.up { ws := wsA, provider := "virtualbox", debug := false }
        envC1 none wA).2.trace = 0 ∧
    createCount (VagrantManager.up { ws := wsA, provider := "virtualbox", debug := false }
        envC1 none wA).2.trace = 1 := by
  decide

/-- C9 counterexample.  A child that keeps its output stream open for 1000
time units before closing it and exiting is never timed out: `run_cmd`'s
`for line in proc.stdout` loop blocks until EOF, so the 600-unit ceiling
never bounds the child's total runtime and the child is not killed. -/
theorem runCmd_total_runtime_unbounded_cex :
    (runCmd bSlow ("")).elapsed = 1000 ∧ ¬ ((runCmd bSlow ("")).elapsed ≤ 600) ∧
    (runCmd bSlow ("")).killed = false ∧ (runCmd bSlow ("")).code = 0 := by
  decide

/-- C9 (amended).  The 600-unit ceiling bounds only the part of the
child's runtime after its output stream reaches end-of-file: when that
part exceeds 600 units the child is forcibly killed at the ceiling and the
runner returns the sentinel status `-1` together with all output captured
before termination; when it does not, the child's own status is returned.
Either way the runner returns normally, and the lifecycle continues: even
with a sentinel `-1` create result, an `up` run with the cleanup flag set
still spawns its destroy command. -/
theorem runCmd_timeout_spec (b : ChildBehavior) (pre : String) (m : VagrantManager)
    (env : UpEnv) (prov : Option String) (w : World) :
    (600 < b.exitDelay →
      (runCmd b pre).killed = true ∧ (runCmd b pre).code = -1 ∧
      (runCmd b pre).output = capturedOutput pre b.outLines ∧
      (runCmd b pre).elapsed = b.eofTime + 600) ∧
    (b.exitDelay ≤ 600 →
      (runCmd b pre).killed = false ∧ (runCmd b pre).code = b.exitCode ∧
      (runCmd b pre).output = capturedOutput pre b.outLines ∧
      (runCmd b pre).elapsed = b.eofTime + b.exitDelay) ∧
    (env.createResult.1 = -1 → m.ws.cleanup = true → env.destroySpawnRaises = false →
      destroyCount (m.up env prov w).2.trace = destroyCount w.trace + 1) := by
  refine ⟨?_, ?_, ?_⟩
  · intro h
    rw [runCmd, if_pos h]
    exact ⟨rfl, rfl, rfl, rfl⟩
  · intro h
    rw [runCmd, if_neg (by omega)]
    exact ⟨rfl, rfl, rfl, rfl⟩
  · intro _ hc hd
    simp only [VagrantManager.up, hc, hd, if_true, Bool.false_eq_true, if_false]
    rw [cleanup_workspace_trace]
    simp only [World.emit]
    rw [destroyCount_append]
    rcases tryUp_trace_shape m env prov w with h | h | h <;> rw [h] <;>
      simp [destroyCount_append, destroyCount, List.filter, isDestroyCmd]

/-- C10.  With a provisioner kind specified but no provisioning artifact
supplied, the generated machine-configuration file consists of exactly the
three base directives plus `end` (no provisioning directive), and no run
of `up` ever spawns the post-create remote ssh execution, so the script is
executed by neither mechanism. -/
theorem up_provisioner_without_artifact_skips_execution (m : VagrantManager) (env : UpEnv)
    (prov : Option String) (w : World)
    (hp : truthyStr prov = true) (hpp : m.ws.provision_path = none) :
    vagrantfileLines m.ws.box prov m.ws.provision_path m.ws.script_args =
      ["Vagrant.configure(\"2\") do |config|",
       "  config.vm.box = \"" ++ m.ws.box ++ "\"",
       "  config.vm.synced_folder \".\", \"/vagrant\", disabled: false",
       "end"] ∧
    sshCount (m.up env prov w).2.trace = sshCount w.trace := by
  constructor
  · simp [vagrantfileLines, hpp]
  · rcases up_trace_shape m env prov w with h | h <;>
      rcases tryUp_trace_shape_provisioner m env prov w hp with h2 | h2 <;>
        rw [h, h2] <;>
          simp [sshCount_append, sshCount, List.filter, isSshCmd]

/-- C10 witness at a concrete run: provisioner `shell`, no artifact. -/
theorem up_provisioner_without_artifact_skips_execution_w :
    truthyStr (some ("shell")) = true ∧ wsA.provision_path = none ∧
    (vagrantfileLines wsA.box (some ("shell")) wsA.provision_path wsA.script_args =
      ["Vagrant.configure(\"2\") do |config|",
       "  config.vm.box = \"" ++ wsA.box ++ "\"",
       "  config.vm.synced_folder \".\", \"/vagrant\", disabled: false",
       "end"] ∧
     sshCount (VagrantManager.up { ws := wsA, provider := "virtualbox", debug := false }
         envOk (some ("shell")) wA).2.trace = sshCount wA.trace) :=
  ⟨by decide, rfl,
    up_provisioner_without_artifact_skips_execution
      { ws := wsA, provider := "virtualbox", debug := false } envOk (some ("shell")) wA
      (by decide) rfl⟩

/-- C9 witness: the amended timeout specification applied to a hanging
child (killed at the ceiling), to a slow-streaming child (not killed), and
to a cleanup run whose create command reported the sentinel status. -/
theorem runCmd_timeout_spec_w :
    (600 < bHang.exitDelay ∧ (runCmd bHang ("[ubuntu]")).killed = true ∧
      (runCmd bHang ("[ubuntu]")).code = -1) ∧
    (bSlow.exitDelay ≤ 600 ∧ (runCmd bSlow ("")).killed = false) ∧
    (envTimeout.createResult.1 = -1 ∧ wsB.cleanup = true ∧
      destroyCount (VagrantManager.up { ws := wsB, provider := "virtualbox", debug := false }
          envTimeout none wB).2.trace = destroyCount wB.trace + 1) := by
  refine ⟨⟨by decide, ?_, ?_⟩, ⟨by decide, ?_⟩, ⟨by decide, by decide, ?_⟩⟩
  · exact ((runCmd_timeout_spec bHang ("[ubuntu]")
      { ws := wsB, provider := "virtualbox", debug := false } envTimeout none wB).1
      (by decide)).1
  · exact ((runCmd_timeout_spec bHang ("[ubuntu]")
      { ws := wsB, provider := "virtualbox", debug := false } envTimeout none wB).1
      (by decide)).2.1
  · exact ((runCmd_timeout_spec bSlow ("")
      { ws := wsB, provider := "virtualbox", debug := false } envTimeout none wB).2.1
      (by decide)).1
  · exact (runCmd_timeout_spec bSlow ("")
      { ws := wsB, provider := "virtualbox", debug := false } envTimeout none wB).2.2
      rfl rfl rfl

theorem dir_ne_sub (l : FPath) (a : String) (t : FPath) : l ≠ l ++ a :: t :=
  fun h => append_cons_ne l a t h.symm

theorem FS.pathExists_mono_writeFile (fs : FS) (p q : FPath) (c : String)
    (h : fs.pathExists q) : (fs.writeFile p c).pathExists q :=
  (FS.pathExists_writeFile fs p q c).mpr (Or.inr h)

theorem FS.pathExists_mono_addDir (fs : FS) (p q : FPath)
    (h : fs.pathExists q) : (fs.addDir p).pathExists q :=
  (FS.pathExists_addDir fs p q).mpr (Or.inr h)

theorem tryUp_pathExists_dir (m : VagrantManager) (env : UpEnv) (prov : Option String)
    (w : World) :
    (m.tryUp env prov w).2.fs.pathExists m.ws.dir ↔ w.fs.pathExists m.ws.dir := by
  simp only [VagrantManager.tryUp, World.emit, Workspace.write_vagrantfile, Workspace.logs_dir]
  repeat' split
  all_goals simp [FS.pathExists_writeFile, List.append_assoc, dir_ne_sub]

theorem cleanup_workspace_spec (ws : Workspace) (rr : Bool) (w : World)
    (hcount : w.registry.count ws.id ≤ 1)
    (hok : (ws.cleanup_workspace rr w).1 = Except.ok ()) :
    ¬ (ws.cleanup_workspace rr w).2.fs.pathExists ws.dir ∧
      ws.id ∉ (ws.cleanup_workspace rr w).2.registry := by
  by_cases hex : w.fs.pathExists ws.dir
  · rw [Workspace.cleanup_workspace, if_pos hex] at hok ⊢
    cases rr with
    | true => simp at hok
    | false =>
      simp only [Bool.false_eq_true, if_false] at hok ⊢
      constructor
      · exact FS.not_pathExists_rmtree _ _ _ (List.prefix_refl _)
      · split
        · exact not_mem_erase_self_of_count_le_one hcount
        · assumption
  · rw [Workspace.cleanup_workspace, if_neg hex] at hok ⊢
    constructor
    · exact hex
    · split
      · exact not_mem_erase_self_of_count_le_one hcount
      · assumption

/-- C2.  For a Workspace with the cleanup flag set (registered at most
once, as the constructor guarantees), whenever `up` returns -- whether the
create succeeded, failed, or an exception was raised mid-sequence and
caught -- the workspace directory no longer exists and the workspace is no
longer in the registry. -/
theorem up_cleanup_removes_workspace (m : VagrantManager) (env : UpEnv) (prov : Option String)
    (w : World)
    (hc : m.ws.cleanup = true)
    (hcount : w.registry.count m.ws.id ≤ 1)
    (hok : (m.up env prov w).1 = Except.ok ()) :
    ¬ (m.up env prov w).2.fs.pathExists m.ws.dir ∧
      m.ws.id ∉ (m.up env prov w).2.registry := by
  simp only [VagrantManager.up, hc, if_true] at hok ⊢
  cases hd : env.destroySpawnRaises with
  | true => simp [hd] at hok
  | false =>
    simp only [hd, Bool.false_eq_true, if_false] at hok ⊢
    have hcount2 : ((m.tryUp env prov w).2.emit (VCmd.vdestroy m.debug) m.ws.dir).registry.count
        m.ws.id ≤ 1 := by
      simpa [World.emit, tryUp_registry] using hcount
    exact cleanup_workspace_spec m.ws env.rmtreeRaises _ hcount2 hok

/-- C2 witness: a registered cleanup workspace whose run raises
mid-sequence (the Vagrantfile write raises); `up` still returns normally,
the directory is gone and the registry entry is dropped. -/
theorem up_cleanup_removes_workspace_w :
    wsB.cleanup = true ∧ wB.registry.count wsB.id ≤ 1 ∧
    (VagrantManager.up { ws := wsB, provider := "virtualbox", debug := false }
        envMidRaise none wB).1 = Except.ok () ∧
    (¬ (VagrantManager.up { ws := wsB, provider := "virtualbox", debug := false }
        envMidRaise none wB).2.fs.pathExists wsB.dir ∧
      wsB.id ∉ (VagrantManager.up { ws := wsB, provider := "virtualbox", debug := false }
        envMidRaise none wB).2.registry) :=
  ⟨rfl, by decide, by decide,
    up_cleanup_removes_workspace { ws := wsB, provider := "virtualbox", debug := false }
      envMidRaise none wB rfl (by decide) (by decide)⟩

/-- C5.  A destroy invocation on an existing workspace directory removes
the directory tree afterwards, whatever the destroy command's exit status
and even if the command spawn, the logs mkdir or the log write raises (the
exception is caught and the `finally:` removal still executes). -/
theorem destroy_removes_workdir (m : VagrantManager) (env : DestroyEnv) (w : World)
    (hx : w.fs.pathExists m.ws.dir) :
    ¬ (m.destroy env w).fs.pathExists m.ws.dir := by
  rw [VagrantManager.destroy, if_pos hx]
  cases h1 : env.spawnRaises with
  | true =>
    simp only [h1, if_true]
    rw [if_pos hx]
    exact FS.not_pathExists_rmtree _ _ _ (List.prefix_refl _)
  | false =>
    simp only [h1, Bool.false_eq_true, if_false, World.emit]
    cases h2 : env.mkdirRaises with
    | true =>
      simp only [if_true]
      rw [if_pos hx]
      exact FS.not_pathExists_rmtree _ _ _ (List.prefix_refl _)
    | false =>
      simp only [Bool.false_eq_true, if_false]
      cases h3 : env.logWriteRaises with
      | true =>
        simp only [if_true]
        rw [if_pos (FS.pathExists_mono_addDir _ _ _ hx)]
        exact FS.not_pathExists_rmtree _ _ _ (List.prefix_refl _)
      | false =>
        simp only [Bool.false_eq_true, if_false]
        rw [if_pos (FS.pathExists_mono_writeFile _ _ _ _ (FS.pathExists_mono_addDir _ _ _ hx))]
        exact FS.not_pathExists_rmtree _ _ _ (List.prefix_refl _)

/-- C5 witness: destroy on an existing workdir with a failing destroy
command (status 2) removes the directory; a second instance has the spawn
and the log write raising. -/
theorem destroy_removes_workdir_w :
    wB.fs.pathExists wsA.dir ∧
    ¬ (VagrantManager.destroy { ws := wsA, provider := "virtualbox", debug := false }
        denvOk wB).fs.pathExists wsA.dir ∧
    ¬ (VagrantManager.destroy { ws := wsA, provider := "virtualbox", debug := false }
        denvRaise wB).fs.pathExists wsA.dir :=
  ⟨by decide,
    destroy_removes_workdir { ws := wsA, provider := "virtualbox", debug := false } denvOk wB
      (by decide),
    destroy_removes_workdir { ws := wsA, provider := "virtualbox", debug := false } denvRaise wB
      (by decide)⟩

/-- C8 counterexample.  An exception raised in the `finally:` cleanup path
of `up` (here: `shutil.rmtree` raising inside `cleanup_workspace`) is not
caught at the lifecycle boundary: `up` propagates it instead of returning
normally, contradicting the claim that exceptions during any step,
including the cleanup steps in the finally path, are swallowed. -/
theorem up_finally_exception_propagates_cex :
    wsB.cleanup = true ∧
    (VagrantManager.up { ws := wsB, provider := "virtualbox", debug := false }
        envRmtreeRaise none wB).1 = Except.error PyErr.osError := by
  decide

/-- C8 (amended).  Exceptions raised during the try-body steps of `up`
(the configuration write, the create and ssh spawns, the log writes) are
caught at the lifecycle boundary and never propagate; but an exception
raised in the `finally:` cleanup path (the destroy spawn or the workspace
removal) has no handler and propagates out of `up`: for a run on an
existing workspace directory, `up` returns normally exactly when no
cleanup-path call raises.  (In sequential orchestration such a propagated
exception crashes `main` and aborts the remaining box runs; with a worker
pool it is silently dropped by `ThreadPoolExecutor.map`.) -/
theorem up_exception_containment (m : VagrantManager) (env : UpEnv) (prov : Option String)
    (w : World) (hx : w.fs.pathExists m.ws.dir) :
    ((m.up env prov w).1 = Except.ok () ↔
      ¬ (m.ws.cleanup = true ∧ (env.destroySpawnRaises = true ∨ env.rmtreeRaises = true))) := by
  cases hc : m.ws.cleanup with
  | false => simp [VagrantManager.up, hc]
  | true =>
    cases hd : env.destroySpawnRaises with
    | true => simp [VagrantManager.up, hc, hd]
    | false =>
      have hx2 : ((m.tryUp env prov w).2.emit (VCmd.vdestroy m.debug) m.ws.dir).fs.pathExists
          m.ws.dir := by
        simpa [World.emit] using (tryUp_pathExists_dir m env prov w).mpr hx
      simp only [VagrantManager.up, hc, hd, if_true, Bool.false_eq_true, if_false]
      rw [Workspace.cleanup_workspace, if_pos hx2]
      cases hr : env.rmtreeRaises with
      | true => simp [hr]
      | false => simp [hr]

/-- C8 witness: the amended containment applied to a concrete run whose
try body raises (Vagrantfile write) but whose cleanup path does not: `up`
returns normally. -/
theorem up_exception_containment_w :
    wB.fs.pathExists wsB.dir ∧
    ((VagrantManager.up { ws := wsB, provider := "virtualbox", debug := false }
        envMidRaise none wB).1 = Except.ok () ↔
      ¬ (wsB.cleanup = true ∧
          (envMidRaise.destroySpawnRaises = true ∨ envMidRaise.rmtreeRaises = true))) :=
  ⟨by decide,
    up_exception_containment { ws := wsB, provider := "virtualbox", debug := false }
      envMidRaise none wB (by decide)⟩

theorem FS.readFile_isSome (fs : FS) (p : FPath) (h : fs.isFile p) :
    ∃ c, fs.readFile p = some c := by
  simp only [FS.isFile, List.mem_map] at h
  obtain ⟨e, he, hfst⟩ := h
  have hfind : (fs.files.find? (fun e2 => decide (e2.1 = p))).isSome := by
    apply List.find?_isSome.mpr
    exact ⟨e, he, by simp [hfst]⟩
  obtain ⟨x, hx⟩ := Option.isSome_iff_exists.mp hfind
  exact ⟨x.2, by simp [FS.readFile, hx]⟩

theorem up_ok_and_preserves (m : VagrantManager) (env : UpEnv) (prov : Option String)
    (w : World) (henv : env.noRaises) (q : FPath) (hq : ¬ m.ws.dir <+: q) :
    (m.up env prov w).1 = Except.ok () ∧
    ((m.up env prov w).2.fs.isFile q ↔ w.fs.isFile q) ∧
    ((m.up env prov w).2.fs.isDir q → w.fs.isDir q) := by
  obtain ⟨h1, h2, h3, h4, h5, h6, h7⟩ := henv
  have hqd : ∀ (a : String) (t : FPath), q ≠ m.ws.dir ++ a :: t := by
    intro a t hEq
    exact hq (hEq ▸ List.prefix_append m.ws.dir (a :: t))
  refine ⟨?_, ?_, ?_⟩ <;>
  · simp only [VagrantManager.up, VagrantManager.tryUp, Workspace.cleanup_workspace,
      Workspace.write_vagrantfile, Workspace.logs_dir, World.emit, h1, h2, h3, h4, h5, h6, h7,
      Bool.false_eq_true, if_false]
    repeat' split
    all_goals simp [FS.isFile_writeFile, FS.isDir_writeFile, FS.isFile_rmtree, FS.isDir_rmtree,
      hq, hqd, List.append_assoc]

theorem worker_ok (envs : Nat → UpEnv) (args : UpArgs) (i : Nat) (b : String) (w : World)
    (hfile : w.fs.isFile args.script) (hnd : ¬ w.fs.isDir args.script)
    (hh : ∀ rest, args.script ≠ "tmp" :: rest)
    (hwd : args.workdir = none) (hpp : args.provision_path = none)
    (henv : (envs i).noRaises) :
    (worker envs args i b w).1 = Except.ok () ∧
    (worker envs args i b w).2.fs.isFile args.script ∧
    ¬ (worker envs args i b w).2.fs.isDir args.script := by
  have hne1 : args.script ≠ ["tmp", "vg-test-" ++ toString w.tmpCounter] := hh _
  have hne2 : args.script ≠ ["tmp", "vg-test-" ++ toString w.tmpCounter] ++ ["logs"] := hh _
  simp only [worker, mkWorkspace, hwd, hpp, resolveWsDir, copyProvision]
  have hfile2 : ((w.fs.addDir (["tmp", "vg-test-" ++ toString w.tmpCounter])).addDir
      ((["tmp", "vg-test-" ++ toString w.tmpCounter]) ++ ["logs"])).isFile args.script := by
    rw [FS.isFile_addDir, FS.isFile_addDir]
    exact hfile
  have hnd2 : ¬ ((w.fs.addDir (["tmp", "vg-test-" ++ toString w.tmpCounter])).addDir
      ((["tmp", "vg-test-" ++ toString w.tmpCounter]) ++ ["logs"])).isDir args.script := by
    rw [FS.isDir_addDir, FS.isDir_addDir]
    rintro (hc | hc | hc)
    · exact hne2 hc
    · exact hne1 hc
    · exact hnd hc
  have hpe : ((w.fs.addDir (["tmp", "vg-test-" ++ toString w.tmpCounter])).addDir
      ((["tmp", "vg-test-" ++ toString w.tmpCounter]) ++ ["logs"])).pathExists args.script :=
    Or.inr hfile2
  rw [if_pos hpe]
  rw [FS.copyInto, if_neg hnd2]
  obtain ⟨c, hc⟩ := FS.readFile_isSome _ _ hfile2
  rw [hc]
  have hq : ¬ (["tmp", "vg-test-" ++ toString w.tmpCounter] : FPath) <+: args.script := by
    intro hpre
    obtain ⟨t, ht⟩ := hpre
    exact hh _ ht.symm
  have hmain := up_ok_and_preserves
    { ws :=
        { id := i, box := b, script := args.script, provision_path := none,
          script_args := args.extra, cleanup := args.cleanup, provider := args.provider,
          dir := ["tmp", "vg-test-" ++ toString w.tmpCounter] },
      provider := args.provider, debug := args.debug }
    (envs i) args.provisioner
    { fs :=
        (((w.fs.addDir (["tmp", "vg-test-" ++ toString w.tmpCounter])).addDir
            ((["tmp", "vg-test-" ++ toString w.tmpCounter]) ++ ["logs"])).writeFile
            (joinName (["tmp", "vg-test-" ++ toString w.tmpCounter]) (pathName args.script)) c),
      registry := (if args.cleanup then w.registry ++ [i] else w.registry),
      trace := w.trace, tmpCounter := w.tmpCounter + 1 }
    henv args.script hq
  obtain ⟨hok, hiff, hdir⟩ := hmain
  refine ⟨hok, ?_, ?_⟩
  · rw [hiff, FS.isFile_writeFile]
    right
    exact hfile2
  · intro hcontra
    exact hnd2 (hdir hcontra)

theorem runSeq_all_ok (envs : Nat → UpEnv) (args : UpArgs)
    (hh : ∀ rest, args.script ≠ "tmp" :: rest)
    (hwd : args.workdir = none) (hpp : args.provision_path = none)
    (henvs : ∀ i, (envs i).noRaises) :
    ∀ (l : List (Nat × String)) (w : World),
      w.fs.isFile args.script → ¬ w.fs.isDir args.script →
      (runSeq envs args l w).1 = MainResult.exitCode 0 := by
  intro l
  induction l with
  | nil => intro w _ _; rfl
  | cons p rest ih =>
    intro w hf hnd
    obtain ⟨i, b⟩ := p
    obtain ⟨hok, hf2, hnd2⟩ := worker_ok envs args i b w hf hnd hh hwd hpp (henvs i)
    rcases hw : worker envs args i b w with ⟨r, w1⟩
    rw [hw] at hok hf2 hnd2
    simp only at hok
    subst hok
    simp only [runSeq, hw]
    exact ih w1 hf2 hnd2

/-- C7.  With the orchestrator binary present, a valid script file, a
resolved box set, an unused base-directory option, no provisioning
artifact and environments in which no library call raises (commands may
still exit with any status, including failures), the `up` entry point
exits with status 0: individual box lifecycle failures are logged but
never escalated to the process exit status, in both the sequential and the
pooled fan-out. -/
theorem mainUp_exit_zero (envs : Nat → UpEnv) (args : UpArgs) (w : World)
    (hfile : w.fs.isFile args.script) (hnd : ¬ w.fs.isDir args.script)
    (hh : ∀ rest, args.script ≠ "tmp" :: rest)
    (hwd : args.workdir = none) (hpp : args.provision_path = none)
    (henvs : ∀ i, (envs i).noRaises)
    (boxes : List String) (hres : resolveBoxes w args = Except.ok boxes) :
    (mainUp true envs args w).1 = MainResult.exitCode 0 := by
  rw [mainUp, if_neg (by decide)]
  rw [if_pos (show w.fs.pathExists args.script from Or.inr hfile)]
  simp only [hres]
  split
  · rfl
  · exact runSeq_all_ok envs args hh hwd hpp henvs boxes.enum w hfile hnd

/-- C7 witness: a sequential `up --box ubuntu --cleanup` run whose create
command fails with status 1 for its one box still exits 0. -/
theorem mainUp_exit_zero_w :
    wC7.fs.isFile argsC7.script ∧ envFail.createResult.1 = 1 ∧
    resolveBoxes wC7 argsC7 = Except.ok (["ubuntu"]) ∧
    (mainUp true (fun _ => envFail) argsC7 wC7).1 = MainResult.exitCode 0 := by
  refine ⟨by decide, by decide, rfl, ?_⟩
  exact mainUp_exit_zero (fun _ => envFail) argsC7 wC7 (by decide) (by decide)
    (by intro rest h; simp [argsC7] at h) rfl rfl (fun _ => show envFail.noRaises by decide)
    (["ubuntu"]) rfl

theorem string_mk_data (s : String) : String.mk s.data = s := rfl

theorem hexVal_hexDigitChar (d : Nat) (hd : d < 16) :
    hexVal (hexDigitChar d) = some d := by
  interval_cases d <;> decide

theorem char_valid_nat (c : Char) : c.toNat < 0xD800 ∨ (0xDFFF < c.toNat ∧ c.toNat < 0x110000) :=
  c.valid

theorem pStr_quote (acc : List String) (sacc : List Char) (t : List Char) :
    pStr acc sacc ('"' :: t) = pAfter acc (String.mk sacc.reverse) t := by
  rw [pStr]
  simp

theorem pStr_lit (acc : List String) (sacc : List Char) (c : Char) (t : List Char)
    (h1 : c ≠ '"') (h2 : c ≠ '\\') :
    pStr acc sacc (c :: t) = pStr acc (c :: sacc) t := by
  rw [pStr]
  simp [h1, h2]

theorem pStr_twoChar (acc : List String) (sacc : List Char) (e ch : Char) (t : List Char)
    (he : escDecode e = some ch) (hu : e ≠ 'u') :
    pStr acc sacc ('\\' :: e :: t) = pStr acc (ch :: sacc) t := by
  rw [pStr]
  simp only [show ('\\' : Char) ≠ '"' from by decide, if_neg, if_pos, if_true, reduceIte]
  rw [pEsc]
  simp [hu, he]

theorem pStr_uSeq (acc : List String) (sacc : List Char) (n : Nat) (t : List Char)
    (hlt : n < 0x10000) (hval : n < 0xD800 ∨ 0xE000 ≤ n) :
    pStr acc sacc (uSeq n ++ t) = pStr acc (Char.ofNat n :: sacc) t := by
  have e1 := hexVal_hexDigitChar (n / 4096 % 16) (Nat.mod_lt _ (by norm_num))
  have e2 := hexVal_hexDigitChar (n / 256 % 16) (Nat.mod_lt _ (by norm_num))
  have e3 := hexVal_hexDigitChar (n / 16 % 16) (Nat.mod_lt _ (by norm_num))
  have e4 := hexVal_hexDigitChar (n % 16) (Nat.mod_lt _ (by norm_num))
  have dd1 : n / 256 / 16 = n / 4096 := by rw [Nat.div_div_eq_div_mul]
  have dd2 : n / 16 / 16 = n / 256 := by rw [Nat.div_div_eq_div_mul]
  have hn : 4096 * (n / 4096 % 16) + 256 * (n / 256 % 16) + 16 * (n / 16 % 16) + n % 16 = n := by
    omega
  rw [uSeq]
  simp only [List.cons_append, List.nil_append]
  rw [pStr]
  rw [if_neg (show ¬ ('\\' : Char) = '"' by decide), if_pos (rfl : ('\\' : Char) = '\\')]
  rw [pEsc]
  rw [if_pos (rfl : ('u' : Char) = 'u')]
  rw [pU]
  rw [e1, e2, e3, e4]
  simp only [hn]
  rcases hval with h | h
  · rw [if_pos h]
  · rw [if_neg (by omega), if_pos h]

theorem pStr_surrogate (acc : List String) (sacc : List Char) (n : Nat) (t : List Char)
    (h1 : 0x10000 <= n) (h2 : n < 0x110000) :
    pStr acc sacc (uSeq (0xD800 + (n - 0x10000) / 1024) ++
      (uSeq (0xDC00 + (n - 0x10000) % 1024) ++ t)) =
      pStr acc (Char.ofNat n :: sacc) t := by
  set hi := 0xD800 + (n - 0x10000) / 1024 with hhi
  set lo := 0xDC00 + (n - 0x10000) % 1024 with hlo
  have e1 := hexVal_hexDigitChar (hi / 4096 % 16) (Nat.mod_lt _ (by norm_num))
  have e2 := hexVal_hexDigitChar (hi / 256 % 16) (Nat.mod_lt _ (by norm_num))
  have e3 := hexVal_hexDigitChar (hi / 16 % 16) (Nat.mod_lt _ (by norm_num))
  have e4 := hexVal_hexDigitChar (hi % 16) (Nat.mod_lt _ (by norm_num))
  have f1 := hexVal_hexDigitChar (lo / 4096 % 16) (Nat.mod_lt _ (by norm_num))
  have f2 := hexVal_hexDigitChar (lo / 256 % 16) (Nat.mod_lt _ (by norm_num))
  have f3 := hexVal_hexDigitChar (lo / 16 % 16) (Nat.mod_lt _ (by norm_num))
  have f4 := hexVal_hexDigitChar (lo % 16) (Nat.mod_lt _ (by norm_num))
  have ddh1 : hi / 256 / 16 = hi / 4096 := by rw [Nat.div_div_eq_div_mul]
  have ddh2 : hi / 16 / 16 = hi / 256 := by rw [Nat.div_div_eq_div_mul]
  have ddl1 : lo / 256 / 16 = lo / 4096 := by rw [Nat.div_div_eq_div_mul]
  have ddl2 : lo / 16 / 16 = lo / 256 := by rw [Nat.div_div_eq_div_mul]
  have hnh : 4096 * (hi / 4096 % 16) + 256 * (hi / 256 % 16) + 16 * (hi / 16 % 16) + hi % 16 =
      hi := by omega
  have hnl : 4096 * (lo / 4096 % 16) + 256 * (lo / 256 % 16) + 16 * (lo / 16 % 16) + lo % 16 =
      lo := by omega
  rw [uSeq, uSeq]
  simp only [List.cons_append, List.nil_append]
  rw [pStr]
  rw [if_neg (show (('\\' : Char) = '"') -> False by decide), if_pos (rfl : ('\\' : Char) = '\\')]
  rw [pEsc]
  rw [if_pos (rfl : ('u' : Char) = 'u')]
  rw [pU]
  rw [e1, e2, e3, e4]
  simp only [hnh]
  rw [if_neg (by omega), if_neg (by omega), if_pos (by omega)]
  rw [pUPair]
  rw [if_pos (show ('\\' : Char) = '\\' /\ ('u' : Char) = 'u' from by exact ⟨rfl, rfl⟩)]
  rw [f1, f2, f3, f4]
  simp only [hnl]
  rw [if_pos (show 0xDC00 <= lo /\ lo < 0xE000 from by omega)]
  have hfin : 0x10000 + 1024 * (hi - 0xD800) + (lo - 0xDC00) = n := by omega
  rw [hfin]

theorem pStr_escChar (c : Char) (acc : List String) (sacc : List Char) (t : List Char) :
    pStr acc sacc (escChar c ++ t) = pStr acc (c :: sacc) t := by
  by_cases hq : c = '"'
  · subst hq
    rw [show escChar '"' = ['\\', '"'] from rfl]
    simp only [List.cons_append, List.nil_append]
    exact pStr_twoChar acc sacc '"' '"' t (by decide) (by decide)
  by_cases hb : c = '\\'
  · subst hb
    rw [show escChar '\\' = ['\\', '\\'] from rfl]
    simp only [List.cons_append, List.nil_append]
    exact pStr_twoChar acc sacc '\\' '\\' t (by decide) (by decide)
  by_cases hpr : 0x20 ≤ c.toNat ∧ c.toNat ≤ 0x7e
  · rw [escChar, if_neg hq, if_neg hb, if_pos hpr]
    simp only [List.cons_append, List.nil_append]
    exact pStr_lit acc sacc c t hq hb
  have hofn := Char.ofNat_toNat c
  by_cases h8 : c.toNat = 8
  · rw [escChar, if_neg hq, if_neg hb, if_neg hpr, if_pos h8]
    simp only [List.cons_append, List.nil_append]
    rw [pStr_twoChar acc sacc 'b' (Char.ofNat 8) t (by decide) (by decide)]
    rw [show Char.ofNat 8 = c from by rw [← h8, hofn]]
  by_cases h9 : c.toNat = 9
  · rw [escChar, if_neg hq, if_neg hb, if_neg hpr, if_neg h8, if_pos h9]
    simp only [List.cons_append, List.nil_append]
    rw [pStr_twoChar acc sacc 't' (Char.ofNat 9) t (by decide) (by decide)]
    rw [show Char.ofNat 9 = c from by rw [← h9, hofn]]
  by_cases h10 : c.toNat = 10
  · rw [escChar, if_neg hq, if_neg hb, if_neg hpr, if_neg h8, if_neg h9, if_pos h10]
    simp only [List.cons_append, List.nil_append]
    rw [pStr_twoChar acc sacc 'n' (Char.ofNat 10) t (by decide) (by decide)]
    rw [show Char.ofNat 10 = c from by rw [← h10, hofn]]
  by_cases h12 : c.toNat = 12
  · rw [escChar, if_neg hq, if_neg hb, if_neg hpr, if_neg h8, if_neg h9, if_neg h10, if_pos h12]
    simp only [List.cons_append, List.nil_append]
    rw [pStr_twoChar acc sacc 'f' (Char.ofNat 12) t (by decide) (by decide)]
    rw [show Char.ofNat 12 = c from by rw [← h12, hofn]]
  by_cases h13 : c.toNat = 13
  · rw [escChar, if_neg hq, if_neg hb, if_neg hpr, if_neg h8, if_neg h9, if_neg h10, if_neg h12,
      if_pos h13]
    simp only [List.cons_append, List.nil_append]
    rw [pStr_twoChar acc sacc 'r' (Char.ofNat 13) t (by decide) (by decide)]
    rw [show Char.ofNat 13 = c from by rw [← h13, hofn]]
  by_cases hlt : c.toNat < 0x10000
  · rw [escChar, if_neg hq, if_neg hb, if_neg hpr, if_neg h8, if_neg h9, if_neg h10, if_neg h12,
      if_neg h13, if_pos hlt]
    have hval : c.toNat < 0xD800 ∨ 0xE000 ≤ c.toNat := by
      rcases char_valid_nat c with h | h
      · exact Or.inl h
      · exact Or.inr (by omega)
    rw [pStr_uSeq acc sacc c.toNat t hlt hval, hofn]
  · rw [escChar, if_neg hq, if_neg hb, if_neg hpr, if_neg h8, if_neg h9, if_neg h10, if_neg h12,
      if_neg h13, if_neg hlt]
    have hrange : 0x10000 ≤ c.toNat ∧ c.toNat < 0x110000 := by
      rcases char_valid_nat c with h | h
      · omega
      · omega
    rw [List.append_assoc]
    rw [pStr_surrogate acc sacc c.toNat t hrange.1 hrange.2, hofn]

theorem pStr_escStr (s : List Char) (acc : List String) (sacc : List Char) (t : List Char) :
    pStr acc sacc (escStr s ++ t) = pStr acc (s.reverse ++ sacc) t := by
  induction s generalizing sacc with
  | nil => simp [escStr]
  | cons c cs ih =>
    rw [escStr, List.append_assoc, pStr_escChar, ih]
    simp

theorem pAfter_close (acc : List String) (s : String) (t : List Char) :
    pAfter acc s (']' :: t) = some ((s :: acc).reverse, t) := by
  rw [pAfter]
  simp

theorem pAfter_sep (acc : List String) (s : String) (t : List Char) :
    pAfter acc s (',' :: ' ' :: '"' :: t) = pStr (s :: acc) [] t := by
  rw [pAfter]
  simp only [reduceIte, show ((',' : Char) = ']') = False from by decide, if_false, if_true,
    show ((',' : Char) = ',') = True from by decide]
  rw [pAfterSep]

theorem pStr_item (x : String) (acc : List String) (t : List Char) :
    pStr acc [] (escStr x.data ++ ('"' :: t)) = pAfter acc x t := by
  rw [pStr_escStr, pStr_quote]
  simp [string_mk_data]

theorem pAfter_dumpsTail (rest : List String) (t : List Char) :
    ∀ (acc : List String) (s : String),
      pAfter acc s ((jsonDumpsTail rest).data ++ (']' :: t)) =
        some ((s :: acc).reverse ++ rest, t) := by
  induction rest with
  | nil =>
    intro acc s
    rw [jsonDumpsTail]
    simp only [show ("" : String).data = [] from rfl, List.nil_append]
    rw [pAfter_close]
    simp
  | cons x r ih =>
    intro acc s
    rw [jsonDumpsTail]
    have hd : ((", " ++ jsonDumpsStr x ++ jsonDumpsTail r).data ++ (']' :: t)) =
        ',' :: ' ' :: '"' :: (escStr x.data ++ ('"' :: ((jsonDumpsTail r).data ++ (']' :: t)))) := by
      simp [String.data_append, jsonDumpsStr, List.append_assoc]
    rw [hd, pAfter_sep, pStr_item, ih]
    simp

theorem parseJsonStringArray_jsonDumps (xs : List String) :
    parseJsonStringArray (jsonDumps xs).data = some (xs, []) := by
  cases xs with
  | nil => rfl
  | cons x r =>
    have hd : (jsonDumps (x :: r)).data =
        '[' :: '"' :: (escStr x.data ++ ('"' :: ((jsonDumpsTail r).data ++ (']' :: [])))) := by
      simp [jsonDumps, jsonDumpsList, jsonDumpsStr, String.data_append, List.append_assoc]
    rw [hd]
    rw [show ∀ L, parseJsonStringArray ('[' :: '"' :: L) = pStr [] [] L from fun L => rfl]
    rw [pStr_item, pAfter_dumpsTail]
    simp

/-- C6.  Writing the machine-configuration file with provisioner kind
`shell` and a provisioning artifact present emits the shell provision
directive whose `args:` field is exactly `json.dumps(script_args)`, and
re-parsing that field as a JSON string array yields exactly the supplied
argument list, element for element in the same order (for every argument
list, including quotes, backslashes, control characters and non-ASCII
text). -/
theorem write_vagrantfile_shell_args_roundtrip (box : String) (pp : FPath) (args : List String) :
    vagrantfileLines box (some ("shell")) (some pp) args =
      ["Vagrant.configure(\"2\") do |config|",
       "  config.vm.box = \"" ++ box ++ "\"",
       "  config.vm.synced_folder \".\", \"/vagrant\", disabled: false",
       "  config.vm.provision \"shell\", privileged: true, path: \"" ++ pathName pp ++
         "\", args: " ++ jsonDumps args,
       "end"] ∧
    parseJsonStringArray (jsonDumps args).data = some (args, []) := by
  constructor
  · simp [vagrantfileLines, truthyStr]
  · exact parseJsonStringArray_jsonDumps args
